import Mathlib

/-!
# sandboxfs: the root node and the mapped symlink node

A shallow embedding of `internal/sandbox/root.go` and
`internal/sandbox/mapped_symlink.go`.

Conventions of the embedding.

* `ω` is the state of everything that lives outside the struct a method is
  called on: the kernel session behind `*fs.Server`, the underlying file
  system, the log output and the heap objects of the directory
  implementations.  Collaborators whose code is outside the two files (the
  kernel session, the `Dir` implementations, the operating system, the logging
  helper) are parameters: arbitrary total functions on `ω`.  A call on a
  collaborator is therefore assumed to return, and a collaborator does not
  write to the fields of the `Root` it is handed as `parent`.
* A method with a pointer receiver returns the receiver as it is after the
  call, next to its Go results.
* Besides `ω` the state carries a trace: the list of effects the embedded code
  itself performed, oldest first.  Collaborators cannot touch it.
-/

namespace sandbox

/-! ## Types of the libraries the package is written against -/

/-- A Go `error` value other than nil; nil is `none` of `Option GoError`. -/
inductive GoError where
  | errno (code : Nat)
  | other (msg : String)
deriving DecidableEq, Repr

/-- An interface value of type `fs.Node`, as far as `==` can tell two of them
apart: the dynamic type together with the pointer held. -/
inductive Node where
  | rootPtr (addr : Nat)
  | nodePtr (addr : Nat)
deriving DecidableEq, Repr

/-- A `context.Context`. -/
structure Context where
  id : Nat
deriving DecidableEq, Repr

/-- A `fuse.RenameRequest`. -/
structure RenameRequest where
  NewDir : Nat
  OldName : String
  NewName : String
deriving DecidableEq, Repr

/-- A `fuse.ReadlinkRequest`: a bare request header. -/
structure ReadlinkRequest where
  ID : Nat
  Node : Nat
deriving DecidableEq, Repr

/-- The kinds `fuse.DirentType` distinguishes. -/
inductive DirentType where
  | DT_Unknown
  | DT_Socket
  | DT_Link
  | DT_File
  | DT_Block
  | DT_Dir
  | DT_Char
  | DT_FIFO
deriving DecidableEq, Repr

/-- A `fuse.Dirent`; the field `Type` of the library is `Type_` here. -/
structure Dirent where
  Inode : Nat
  Type_ : DirentType
  Name : String
deriving DecidableEq, Repr

/-- The kernel session `*fs.Server`, reduced to the one method the package
calls on it in these files. -/
structure Server (ω : Type) where
  InvalidateNodeData : Node → ω → Option GoError × ω

/-- An error of the operating system, in the vocabulary the package sorts
failures of the underlying file system into. -/
inductive OsError where
  | notFound
  | permissionDenied
  | alreadyExists
  | notADirectory
  | ioError
  | errno (code : Nat)
deriving DecidableEq, Repr

/-- An error code of the kernel protocol. -/
inductive ProtocolError where
  | notFound
  | permissionDenied
  | alreadyExists
  | notADirectory
  | ioError
  | errno (code : Nat)
deriving DecidableEq, Repr

/-! ## root.go -/

/-- The interface `Dir`: a value that is an `fs.Node` and has, among the
directory operations, `Rename` and `invalidateEntries`.  The other methods of
the interface are not called in root.go. -/
structure Dir (ω : Type) where
  node : Node
  Rename : Context → RenameRequest → Node → ω → Option GoError × ω
  invalidateEntries : Server ω → Node → ω → ω

/-- An argument of the variadic `info` of `logCacheInvalidationError`. -/
inductive LogArg where
  | str (s : String)
  | node (n : Node)
deriving DecidableEq, Repr

/-- One effect performed by the embedded code: a call on a collaborator with
its arguments (and result), or the store to the field `Dir` of a `Root`. -/
inductive Effect (ω : Type) where
  | InvalidateNodeData (n : Node) (err : Option GoError)
  | logCacheInvalidationError (err : Option GoError) (info : List LogArg)
  | invalidateEntries (callee : Dir ω) (parent : Node)
  | setDir (rootAddr : Nat) (d : Dir ω)
  | Rename (callee : Dir ω) (ctx : Context) (req : RenameRequest) (newDir : Node)
      (err : Option GoError)
  | osReadlink (path : String) (link : String) (err : Option OsError)

/-- The state threaded through the embedded code. -/
structure Sys (ω : Type) where
  world : ω
  trace : List (Effect ω)

/-- The functions the two files call that are defined neither in them nor in a
type above: the package helper `logCacheInvalidationError` (it returns
nothing) and `os.Readlink`. -/
structure Env (ω : Type) where
  logCacheInvalidationError : Option GoError → List LogArg → ω → ω
  osReadlink : String → ω → (String × Option OsError) × ω

/-- The struct `Root`: the embedded `Dir`, and the address of the struct, which
is what a `*Root` is compared by. -/
structure Root (ω : Type) where
  addr : Nat
  Dir : Dir ω

variable {ω : Type}

/-- The `*Root` as an `fs.Node` interface value. -/
def Root.asNode (r : Root ω) : Node :=
  Node.rootPtr r.addr

/-- The constructor `NewRoot(node)`: `&Root{node}`, allocated at `addr`. -/
def NewRoot (addr : Nat) (node : Dir ω) : Root ω :=
  { addr := addr, Dir := node }

/-- The method `(r *Root) Reconfigure(server, root)`: the receiver and the state
after the call; the method has no result. -/
def Root.Reconfigure (env : Env ω) (r : Root ω) (server : Server ω) (root : sandbox.Dir ω)
    (st : Sys ω) : Root ω × Sys ω :=
  -- err := server.InvalidateNodeData(r)
  let res := server.InvalidateNodeData r.asNode st.world
  let err := res.1
  let st : Sys ω := ⟨res.2, st.trace ++ [Effect.InvalidateNodeData r.asNode err]⟩
  -- logCacheInvalidationError(err, "Could not invalidate root: ", r)
  let info := [LogArg.str "Could not invalidate root: ", LogArg.node r.asNode]
  let st : Sys ω := ⟨env.logCacheInvalidationError err info st.world,
    st.trace ++ [Effect.logCacheInvalidationError err info]⟩
  -- r.Dir.invalidateEntries(server, r)
  let st : Sys ω := ⟨r.Dir.invalidateEntries server r.asNode st.world,
    st.trace ++ [Effect.invalidateEntries r.Dir r.asNode]⟩
  -- r.Dir = root
  let r : Root ω := { r with Dir := root }
  let st : Sys ω := ⟨st.world, st.trace ++ [Effect.setDir r.addr root]⟩
  -- r.Dir.invalidateEntries(server, r)
  let st : Sys ω := ⟨r.Dir.invalidateEntries server r.asNode st.world,
    st.trace ++ [Effect.invalidateEntries r.Dir r.asNode]⟩
  (r, st)

/-- The method `(r *Root) Rename(ctx, req, newDir)`: the error returned, the receiver and
the state after the call. -/
def Root.Rename (r : Root ω) (ctx : Context) (req : RenameRequest) (newDir : Node)
    (st : Sys ω) : Option GoError × Root ω × Sys ω :=
  -- if newDir == r { newDir = r.Dir }
  let newDir := if newDir = r.asNode then r.Dir.node else newDir
  -- return r.Dir.Rename(ctx, req, newDir)
  let res := r.Dir.Rename ctx req newDir st.world
  (res.1, r, ⟨res.2, st.trace ++ [Effect.Rename r.Dir ctx req newDir res.1]⟩)

/-! ## mapped_symlink.go -/

/-- Modelled from the spec: the struct `BaseNode`, which is declared in another
file of the package.  It holds the underlying real path, the writable flag and
the inode number given to the node when it was created. -/
structure BaseNode where
  underlyingPath : String
  writable : Bool
  inode : Nat
deriving DecidableEq, Repr

/-- Modelled from the spec: the method `Inode` of `BaseNode`, defined in another
file of the package: the identity of the node as the kernel protocol sees it,
which is the inode number stored in the node. -/
def BaseNode.Inode (n : BaseNode) : Nat :=
  n.inode

/-- Modelled from the spec: the package helper `fuseErrno`, defined in another
file of the package.  A nil error stays nil; a failure of the operating system
becomes the error code of the kernel protocol that corresponds to it. -/
def fuseErrno : Option OsError → Option ProtocolError
  | none => none
  | some OsError.notFound => some ProtocolError.notFound
  | some OsError.permissionDenied => some ProtocolError.permissionDenied
  | some OsError.alreadyExists => some ProtocolError.alreadyExists
  | some OsError.notADirectory => some ProtocolError.notADirectory
  | some OsError.ioError => some ProtocolError.ioError
  | some (OsError.errno code) => some (ProtocolError.errno code)

/-- The struct `MappedSymlink`: an embedded `BaseNode`. -/
structure MappedSymlink extends BaseNode
deriving DecidableEq, Repr

/-- The method `(s *MappedSymlink) Readlink(ctx, req)`: the two results, the receiver and
the state after the call. -/
def MappedSymlink.Readlink (env : Env ω) (s : MappedSymlink) (_ctx : Context)
    (_req : ReadlinkRequest) (st : Sys ω) :
    (String × Option ProtocolError) × MappedSymlink × Sys ω :=
  -- link, err := os.Readlink(s.underlyingPath)
  let res := env.osReadlink s.underlyingPath st.world
  let link := res.1.1
  let err := res.1.2
  -- return link, fuseErrno(err)
  ((link, fuseErrno err), s,
    ⟨res.2, st.trace ++ [Effect.osReadlink s.underlyingPath link err]⟩)

/-- The method `(s *MappedSymlink) Dirent(name)`. -/
def MappedSymlink.Dirent (s : MappedSymlink) (name : String) : Dirent :=
  { Inode := s.Inode, Name := name, Type_ := DirentType.DT_Link }

/-- The method `(s *MappedSymlink) invalidate(server)`, whose body is empty: the
receiver and the state after the call. -/
def MappedSymlink.invalidate (s : MappedSymlink) (_server : Server ω) (st : Sys ω) :
    MappedSymlink × Sys ω :=
  (s, st)

/-! ## Concrete collaborators, for evaluating the definitions -/

/-- A world for examples: the lines the collaborators wrote, oldest first. -/
abbrev Lines := List String

/-- A kernel session that records the call and answers with `result`. -/
def sampleServer (result : Option GoError) : Server Lines :=
  { InvalidateNodeData := fun _ w => (result, w ++ ["InvalidateNodeData"]) }

/-- A directory at `addr`.  Its `Rename` fails with `errno 18` unless the
destination is the directory itself; both methods record the call. -/
def sampleDir (addr : Nat) (label : String) : Dir Lines :=
  { node := Node.nodePtr addr
    Rename := fun _ _ newDir w =>
      (if newDir = Node.nodePtr addr then none else some (GoError.errno 18),
        w ++ [label ++ ".Rename"])
    invalidateEntries := fun _ _ w => w ++ [label ++ ".invalidateEntries"] }

/-- A logging helper that writes a line for a non-nil error, and an operating
system that knows one symlink, `/real/link`. -/
def sampleEnv : Env Lines :=
  { logCacheInvalidationError := fun err _ w =>
      match err with
      | none => w
      | some _ => w ++ ["log"]
    osReadlink := fun path w =>
      if path = "/real/link" then (("target", none), w)
      else (("", some OsError.notFound), w) }

/-- A root at address 7 with the directory `old` installed. -/
def sampleRoot : Root Lines :=
  NewRoot 7 (sampleDir 1 "old")

/-- A symlink node backed by `/real/link`. -/
def sampleSymlink : MappedSymlink :=
  { underlyingPath := "/real/link", writable := false, inode := 42 }

/-- A symlink node whose underlying path is gone. -/
def danglingSymlink : MappedSymlink :=
  { underlyingPath := "/real/gone", writable := true, inode := 43 }

/-! ## Reconfigure -/

/-- C1: whatever directory is installed in the root, whatever the kernel session
answers and whatever the collaborators do to the world, after
`Reconfigure(server, newTree)` the directory installed in the root is
`newTree`, and the root is still the same object. -/
theorem Reconfigure_installs_newTree (env : Env ω) (r : Root ω) (server : Server ω)
    (newTree : Dir ω) (st : Sys ω) :
    (Root.Reconfigure env r server newTree st).1.Dir = newTree
      ∧ (Root.Reconfigure env r server newTree st).1.addr = r.addr :=
  ⟨rfl, rfl⟩

/-- C2: the effects of `Reconfigure(server, T_new)` on a root with `T_old`
installed are, in this order: `InvalidateNodeData` on the root (its result is
handed to the logging helper), `invalidateEntries` of `T_old` with the root as
parent, the store of `T_new` to the field `Dir`, `invalidateEntries` of `T_new`
with the root as parent.  The world after the call is the one these calls
produce one after the other, the method run first being the one of `T_old` and
the method run last the one of `T_new`. -/
theorem Reconfigure_effects_in_order (env : Env ω) (r : Root ω) (server : Server ω)
    (T_new : Dir ω) (st : Sys ω) :
    (Root.Reconfigure env r server T_new st).2.trace
        = st.trace ++
          [Effect.InvalidateNodeData r.asNode
              (server.InvalidateNodeData r.asNode st.world).1,
            Effect.logCacheInvalidationError
              (server.InvalidateNodeData r.asNode st.world).1
              [LogArg.str "Could not invalidate root: ", LogArg.node r.asNode],
            Effect.invalidateEntries r.Dir r.asNode,
            Effect.setDir r.addr T_new,
            Effect.invalidateEntries T_new r.asNode]
      ∧ (Root.Reconfigure env r server T_new st).2.world
        = T_new.invalidateEntries server r.asNode
            (r.Dir.invalidateEntries server r.asNode
              (env.logCacheInvalidationError
                (server.InvalidateNodeData r.asNode st.world).1
                [LogArg.str "Could not invalidate root: ", LogArg.node r.asNode]
                (server.InvalidateNodeData r.asNode st.world).2)) := by
  constructor
  · simp [Root.Reconfigure, Root.asNode]
  · rfl

/-- C2, evaluated: a kernel session that succeeds, a root with `old` installed
and `new` to install.  The collaborators wrote their lines in the order of the
calls, and the store sits between the two entry invalidations in the trace. -/
theorem Reconfigure_effects_in_order_witness :
    (Root.Reconfigure sampleEnv sampleRoot (sampleServer none) (sampleDir 2 "new")
        ⟨[], []⟩).2.world
        = ["InvalidateNodeData", "old.invalidateEntries", "new.invalidateEntries"]
      ∧ ((Root.Reconfigure sampleEnv sampleRoot (sampleServer none) (sampleDir 2 "new")
          ⟨[], []⟩).2.trace.drop 2).take 2
        = [Effect.invalidateEntries (sampleDir 1 "old") (Node.rootPtr 7),
            Effect.setDir 7 (sampleDir 2 "new")] :=
  have h := Reconfigure_effects_in_order sampleEnv sampleRoot (sampleServer none)
    (sampleDir 2 "new") ⟨[], []⟩
  ⟨by rw [h.2]; rfl, by rw [h.1]; rfl⟩

/-- C3: when `InvalidateNodeData` on the root fails with the error `e`,
`Reconfigure` (which has no result, so nothing is reported to the caller) hands
`e` to the logging helper and goes on: both `invalidateEntries` calls are made,
the old directory first and `newTree` last, `newTree` is installed, and the
root after the call is the one any other kernel session, failing or not, would
have left. -/
theorem Reconfigure_survives_invalidation_failure (env : Env ω) (r : Root ω)
    (server : Server ω) (newTree : Dir ω) (st : Sys ω) (e : GoError)
    (hfail : (server.InvalidateNodeData r.asNode st.world).1 = some e) :
    (Root.Reconfigure env r server newTree st).1.Dir = newTree
      ∧ (Root.Reconfigure env r server newTree st).2.trace
        = st.trace ++
          [Effect.InvalidateNodeData r.asNode (some e),
            Effect.logCacheInvalidationError (some e)
              [LogArg.str "Could not invalidate root: ", LogArg.node r.asNode],
            Effect.invalidateEntries r.Dir r.asNode,
            Effect.setDir r.addr newTree,
            Effect.invalidateEntries newTree r.asNode]
      ∧ (Root.Reconfigure env r server newTree st).2.world
        = newTree.invalidateEntries server r.asNode
            (r.Dir.invalidateEntries server r.asNode
              (env.logCacheInvalidationError (some e)
                [LogArg.str "Could not invalidate root: ", LogArg.node r.asNode]
                (server.InvalidateNodeData r.asNode st.world).2))
      ∧ ∀ (env2 : Env ω) (server2 : Server ω) (st2 : Sys ω),
          (Root.Reconfigure env2 r server2 newTree st2).1
            = (Root.Reconfigure env r server newTree st).1 := by
  refine ⟨rfl, ?_, ?_, fun _ _ _ => rfl⟩
  · rw [← hfail]
    simp [Root.Reconfigure, Root.asNode]
  · rw [← hfail]
    rfl

/-- C3, evaluated: a kernel session that fails with `errno 5` on a root that
has `old` installed; the directory `new` ends up installed and the world holds
the failed call, the log line and the two entry invalidations, in this
order. -/
theorem Reconfigure_survives_invalidation_failure_witness :
    ((sampleServer (some (GoError.errno 5))).InvalidateNodeData sampleRoot.asNode []).1
        = some (GoError.errno 5)
      ∧ (Root.Reconfigure sampleEnv sampleRoot (sampleServer (some (GoError.errno 5)))
          (sampleDir 2 "new") ⟨[], []⟩).1.Dir.node = Node.nodePtr 2
      ∧ (Root.Reconfigure sampleEnv sampleRoot (sampleServer (some (GoError.errno 5)))
          (sampleDir 2 "new") ⟨[], []⟩).2.world
        = ["InvalidateNodeData", "log", "old.invalidateEntries", "new.invalidateEntries"] :=
  have h := Reconfigure_survives_invalidation_failure sampleEnv sampleRoot
    (sampleServer (some (GoError.errno 5))) (sampleDir 2 "new") ⟨[], []⟩ (GoError.errno 5) rfl
  ⟨rfl, congrArg Dir.node h.1, by rw [h.2.2.1]; rfl⟩

/-! ## Rename -/

/-- C4: on a root with the directory `D` installed, `Rename` with the root
itself as destination and `Rename` with `D` as destination give the same error,
the same root and the same state; the error and the world are the ones of
`D.Rename(ctx, req, D)`. -/
theorem Rename_to_root_is_Rename_to_Dir (r : Root ω) (ctx : Context) (req : RenameRequest)
    (st : Sys ω) :
    r.Rename ctx req r.asNode st = r.Rename ctx req r.Dir.node st
      ∧ (r.Rename ctx req r.asNode st).1 = (r.Dir.Rename ctx req r.Dir.node st.world).1
      ∧ (r.Rename ctx req r.Dir.node st).1 = (r.Dir.Rename ctx req r.Dir.node st.world).1
      ∧ (r.Rename ctx req r.asNode st).2.2.world
        = (r.Dir.Rename ctx req r.Dir.node st.world).2
      ∧ (r.Rename ctx req r.Dir.node st).2.2.world
        = (r.Dir.Rename ctx req r.Dir.node st.world).2 := by
  have hroot : r.Rename ctx req r.asNode st
      = ((r.Dir.Rename ctx req r.Dir.node st.world).1, r,
          ⟨(r.Dir.Rename ctx req r.Dir.node st.world).2,
            st.trace ++ [Effect.Rename r.Dir ctx req r.Dir.node
              (r.Dir.Rename ctx req r.Dir.node st.world).1]⟩) := by
    simp [Root.Rename]
  have hdir : r.Rename ctx req r.Dir.node st
      = ((r.Dir.Rename ctx req r.Dir.node st.world).1, r,
          ⟨(r.Dir.Rename ctx req r.Dir.node st.world).2,
            st.trace ++ [Effect.Rename r.Dir ctx req r.Dir.node
              (r.Dir.Rename ctx req r.Dir.node st.world).1]⟩) := by
    simp [Root.Rename]
  rw [hroot, hdir]
  exact ⟨rfl, rfl, rfl, rfl, rfl⟩

/-- C4, evaluated: the installed directory accepts only itself as destination.
Through the root, the root and the directory are both accepted; handed the
root directly, the directory refuses it. -/
theorem Rename_to_root_is_Rename_to_Dir_witness :
    (sampleRoot.Rename ⟨0⟩ ⟨1, "a", "b"⟩ sampleRoot.asNode ⟨[], []⟩).1 = none
      ∧ (sampleRoot.Rename ⟨0⟩ ⟨1, "a", "b"⟩ sampleRoot.Dir.node ⟨[], []⟩).1 = none
      ∧ (sampleRoot.Dir.Rename ⟨0⟩ ⟨1, "a", "b"⟩ sampleRoot.asNode []).1
        = some (GoError.errno 18) :=
  have h := Rename_to_root_is_Rename_to_Dir sampleRoot ⟨0⟩ ⟨1, "a", "b"⟩ ⟨[], []⟩
  ⟨by rw [h.2.1]; rfl, by rw [h.2.2.1]; rfl, rfl⟩

/-- C9: `Rename` leaves the root as it was, whatever the destination and
whatever the directory answers, so the directory installed after the call is
the one installed before it; and `NewRoot(node)` is a root with `node`
installed. -/
theorem Rename_keeps_Dir_and_NewRoot_installs_node (r : Root ω) (ctx : Context)
    (req : RenameRequest) (newDir : Node) (st : Sys ω) (addr : Nat) (node : Dir ω) :
    (r.Rename ctx req newDir st).2.1 = r
      ∧ (r.Rename ctx req newDir st).2.1.Dir = r.Dir
      ∧ (NewRoot addr node).Dir = node :=
  ⟨rfl, rfl, rfl⟩

/-- C10: when the destination is not the root itself, `Rename` calls the
`Rename` of the installed directory once, with the same context, the same
request and the destination as it came, and returns its error; the world after
the call is the one that call left. -/
theorem Rename_delegates_unmodified (r : Root ω) (ctx : Context) (req : RenameRequest)
    (newDir : Node) (st : Sys ω) (hne : newDir ≠ r.asNode) :
    (r.Rename ctx req newDir st).1 = (r.Dir.Rename ctx req newDir st.world).1
      ∧ (r.Rename ctx req newDir st).2.2.world = (r.Dir.Rename ctx req newDir st.world).2
      ∧ (r.Rename ctx req newDir st).2.2.trace
        = st.trace ++
          [Effect.Rename r.Dir ctx req newDir (r.Dir.Rename ctx req newDir st.world).1] := by
  simp [Root.Rename, hne]

/-- C10, evaluated: the destination is the node at address 3, which is neither
the root nor the installed directory; the installed directory refuses it with
`errno 18` and that is what the root returns. -/
theorem Rename_delegates_unmodified_witness :
    Node.nodePtr 3 ≠ sampleRoot.asNode
      ∧ (sampleRoot.Rename ⟨0⟩ ⟨3, "a", "b"⟩ (Node.nodePtr 3) ⟨[], []⟩).1
        = some (GoError.errno 18)
      ∧ (sampleRoot.Rename ⟨0⟩ ⟨3, "a", "b"⟩ (Node.nodePtr 3) ⟨[], []⟩).2.2.world
        = ["old.Rename"] :=
  have hne : Node.nodePtr 3 ≠ sampleRoot.asNode := by decide
  have h := Rename_delegates_unmodified sampleRoot ⟨0⟩ ⟨3, "a", "b"⟩ (Node.nodePtr 3)
    ⟨[], []⟩ hne
  ⟨hne, by rw [h.1]; rfl, by rw [h.2.1]; rfl⟩

/-! ## MappedSymlink -/

/-- C5: `invalidate` does nothing: the state after the call is the state
before it (the world is untouched and no effect is added to the trace, so the
kernel session receives no call, whatever session was passed), and the node
after the call is the node before it, with the same underlying path, writable
flag and inode. -/
theorem invalidate_is_noop (s : MappedSymlink) (server : Server ω) (st : Sys ω) :
    (s.invalidate server st).2 = st
      ∧ (s.invalidate server st).2.world = st.world
      ∧ (s.invalidate server st).2.trace = st.trace
      ∧ (s.invalidate server st).1 = s
      ∧ (s.invalidate server st).1.underlyingPath = s.underlyingPath
      ∧ (s.invalidate server st).1.writable = s.writable
      ∧ (s.invalidate server st).1.inode = s.inode :=
  ⟨rfl, rfl, rfl, rfl, rfl, rfl, rfl⟩

/-- C5, evaluated: the sample kernel session records every call it receives;
after `invalidate` the world is still empty, while a call of the session
itself would have left a line. -/
theorem invalidate_is_noop_witness :
    (sampleSymlink.invalidate (sampleServer none) ⟨[], []⟩).2.world = []
      ∧ (sampleSymlink.invalidate (sampleServer none) ⟨[], []⟩).1 = sampleSymlink
      ∧ ((sampleServer none).InvalidateNodeData (Node.nodePtr 42) []).2
        = ["InvalidateNodeData"] :=
  have h := invalidate_is_noop sampleSymlink (sampleServer none) ⟨[], []⟩
  ⟨h.2.1, h.2.2.2.1, rfl⟩

/-- C6: `Dirent(name)` has the name `name`, the inode `s.Inode()` and the kind
`DT_Link`; two entries of one node have the same inode and kind, and the same
name only when they were asked for by the same name. -/
theorem Dirent_fields (s : MappedSymlink) (name other : String) :
    (s.Dirent name).Name = name
      ∧ (s.Dirent name).Inode = s.Inode
      ∧ (s.Dirent name).Type_ = DirentType.DT_Link
      ∧ (s.Dirent name).Inode = (s.Dirent other).Inode
      ∧ (s.Dirent name).Type_ = (s.Dirent other).Type_
      ∧ ((s.Dirent name).Name = (s.Dirent other).Name ↔ name = other)
      ∧ (s.Dirent name = s.Dirent other ↔ name = other) := by
  refine ⟨rfl, rfl, rfl, rfl, rfl, Iff.rfl, ?_⟩
  constructor
  · intro h
    exact congrArg Dirent.Name h
  · intro h
    rw [h]

/-- C7: `Readlink` returns the string `os.Readlink` gave for the underlying
path of the node, and `fuseErrno` of its error: no error when the call
succeeded, the protocol code of the failure when it failed.  Another request or
context gives the same results, and the node after the call is the node before
it. -/
theorem Readlink_translates_os_result (env : Env ω) (s : MappedSymlink) (ctx : Context)
    (req : ReadlinkRequest) (st : Sys ω) :
    (s.Readlink env ctx req st).1
        = ((env.osReadlink s.underlyingPath st.world).1.1,
            fuseErrno (env.osReadlink s.underlyingPath st.world).1.2)
      ∧ ((env.osReadlink s.underlyingPath st.world).1.2 = none →
          (s.Readlink env ctx req st).1
            = ((env.osReadlink s.underlyingPath st.world).1.1, none))
      ∧ (∀ e : OsError, (env.osReadlink s.underlyingPath st.world).1.2 = some e →
          ∃ code : ProtocolError,
            (s.Readlink env ctx req st).1.2 = some code ∧ fuseErrno (some e) = some code)
      ∧ (∀ (ctx2 : Context) (req2 : ReadlinkRequest),
          s.Readlink env ctx2 req2 st = s.Readlink env ctx req st)
      ∧ (s.Readlink env ctx req st).2.1 = s := by
  refine ⟨rfl, ?_, ?_, fun _ _ => rfl, rfl⟩
  · intro h
    simp [MappedSymlink.Readlink, h, fuseErrno]
  · intro e h
    cases e <;> simp [MappedSymlink.Readlink, h, fuseErrno]

/-- C7, evaluated: the symlink that exists reads as its target with no error,
and the one whose underlying path is gone gives the protocol code for
not-found. -/
theorem Readlink_translates_os_result_witness :
    (sampleSymlink.Readlink sampleEnv ⟨0⟩ ⟨1, 42⟩ ⟨[], []⟩).1 = ("target", none)
      ∧ (danglingSymlink.Readlink sampleEnv ⟨0⟩ ⟨1, 43⟩ ⟨[], []⟩).1
        = ("", some ProtocolError.notFound) :=
  ⟨(Readlink_translates_os_result sampleEnv sampleSymlink ⟨0⟩ ⟨1, 42⟩ ⟨[], []⟩).2.1
      (by simp [sampleEnv, sampleSymlink]),
    by
      rw [(Readlink_translates_os_result sampleEnv danglingSymlink ⟨0⟩ ⟨1, 43⟩ ⟨[], []⟩).1]
      simp [sampleEnv, danglingSymlink, fuseErrno]⟩

end sandbox
